import Mathlib

/-!
Verification of the `todoman.formatters` module (src/todoman/formatters.py).

The Python source is shallowly embedded: pure functions become Lean
functions, Python exceptions become `Except PyErr`, Python `None` becomes
`Option.none`.  Calls into external libraries (`datetime.strptime`,
`strftime`, `parsedatetime`, `time.mktime`, `tabulate`) are modelled as
fields of an environment record `PyLib`, since those libraries are external
collaborators of the repository; everything written in `formatters.py`
itself is translated definitionally.  CPython's `int(s, base)` conversion,
which `rgb_to_ansi` and `PorcelainFormatter.parse_priority` rely on for
their error behaviour, is modelled concretely (`pySigned` below).
-/

/-- Python exception values raised by this module: `ValueError(msg)` and
`click.BadParameter(e)` (the latter wraps the message of the underlying
`ValueError`). -/
inductive PyErr where
  | valueError (msg : String)
  | badParameter (wrapped : String)
deriving DecidableEq

/-- The whitespace characters stripped by CPython's `int(str, base)`
(ASCII subset). -/
def pyWhitespace (c : Char) : Bool :=
  c = ' ' || c = '\t' || c = '\n' || c = '\r' || c = '\x0b' || c = '\x0c'

/-- Strip leading and trailing whitespace, as `int()` does before parsing. -/
def stripWs (l : List Char) : List Char :=
  ((l.dropWhile pyWhitespace).reverse.dropWhile pyWhitespace).reverse

/-- Value of a hexadecimal digit character, if it is one. -/
def hexVal (c : Char) : Option Nat :=
  if '0' ≤ c ∧ c ≤ '9' then some (c.toNat - '0'.toNat)
  else if 'a' ≤ c ∧ c ≤ 'f' then some (c.toNat - 'a'.toNat + 10)
  else if 'A' ≤ c ∧ c ≤ 'F' then some (c.toNat - 'A'.toNat + 10)
  else none

/-- Value of a decimal digit character, if it is one. -/
def decVal (c : Char) : Option Nat :=
  if '0' ≤ c ∧ c ≤ '9' then some (c.toNat - '0'.toNat) else none

/-- Digit run after the first digit: CPython allows a single `_` between
two digits (`1_0` is fine, `1__0`, `1_` are not). -/
def pyDigitsAux (val : Char → Option Nat) (base : Nat) : Nat → List Char → Option Nat
  | acc, [] => some acc
  | acc, '_' :: c :: rest =>
    match val c with
    | some d => pyDigitsAux val base (acc * base + d) rest
    | none => none
  | acc, c :: rest =>
    match val c with
    | some d => pyDigitsAux val base (acc * base + d) rest
    | none => none

/-- A non-empty run of digits (underscores only between digits). -/
def pyDigitsRun (val : Char → Option Nat) (base : Nat) : List Char → Option Nat
  | [] => none
  | c :: rest =>
    match val c with
    | some d => pyDigitsAux val base d rest
    | none => none

/-- Hex digits after an `0x`/`0X` radix mark; CPython also allows a single
underscore right after the mark (`0x_ff`). -/
def hexAfterRadixMark (r : List Char) : Option Nat :=
  match r with
  | '_' :: r2 => pyDigitsRun hexVal 16 r2
  | r2 => pyDigitsRun hexVal 16 r2

/-- The unsigned part of `int(s, 16)`: optional `0x`/`0X` radix mark, then
hex digits. -/
def pyUnsignedHex (s : List Char) : Option Nat :=
  match s with
  | '0' :: 'x' :: rest => hexAfterRadixMark rest
  | '0' :: 'X' :: rest => hexAfterRadixMark rest
  | _ => pyDigitsRun hexVal 16 s

/-- CPython `int(s, base)`: strip whitespace, optional sign, digits;
`none` models a raised `ValueError`. -/
def pySigned (u : List Char → Option Nat) (s : List Char) : Option Int :=
  match stripWs s with
  | '+' :: rest => (u rest).map Int.ofNat
  | '-' :: rest => (u rest).map (fun n => -(Int.ofNat n))
  | rest => (u rest).map Int.ofNat

/-- `int(s, 16)` on a list of characters. -/
def pyIntHexL (s : List Char) : Option Int := pySigned pyUnsignedHex s

/-- `int(s)` (base 10) on a string. -/
def pyIntDec (s : String) : Option Int := pySigned (pyDigitsRun decVal 10) s.toList

/-- The message of the `ValueError` CPython raises for `int(s, 16)` on a
bad literal (the quotes around the literal are written with `\x27`). -/
def hexErrMsg (l : List Char) : String :=
  "invalid literal for int() with base 16: \x27" ++ String.mk l ++ "\x27"

/-- Characters `colour[1:3]` (Python slicing clamps at the end). -/
def chanR (c : String) : List Char := (c.toList.drop 1).take 2

/-- Characters `colour[3:5]`. -/
def chanG (c : String) : List Char := (c.toList.drop 3).take 2

/-- Characters `colour[5:7]`. -/
def chanB (c : String) : List Char := (c.toList.drop 5).take 2

/-- Python `colour.startswith(hash-mark)`: the first character is `#`. -/
def startsWithHash (c : String) : Bool :=
  match c.toList with
  | '#' :: _ => true
  | _ => false

/-- `rgb_to_ansi` (formatters.py lines 13-27).  The input is optional
because callers pass `database.colour`, which may be `None`; Python
`not colour` is true for `None` and for the empty string.  The chained
comparison `len(r) == len(g) == len(b) == 2` says all three slices have
length 2.  The three `int(_, 16)` calls are evaluated left to right and
the first failing one raises `ValueError`. -/
def rgb_to_ansi (colour : Option String) : Except PyErr (Option String) :=
  match colour with
  | none => .ok none
  | some c =>
    if c = "" ∨ startsWithHash c = false then .ok none
    else
      if (chanR c).length = 2 ∧ (chanG c).length = 2 ∧ (chanB c).length = 2 then
        match pyIntHexL (chanR c) with
        | none => .error (.valueError (hexErrMsg (chanR c)))
        | some ri =>
          match pyIntHexL (chanG c) with
          | none => .error (.valueError (hexErrMsg (chanG c)))
          | some gi =>
            match pyIntHexL (chanB c) with
            | none => .error (.valueError (hexErrMsg (chanB c)))
            | some bi =>
              .ok (some ("\x1b[38;2;" ++ toString ri ++ ";" ++ toString gi
                ++ ";" ++ toString bi ++ "m"))
      else .ok none

/-- Timezone objects (`tzlocal()`, `pytz.UTC`, or some named zone); only
their identity matters to this module. -/
inductive Tz where
  | utc
  | localtz
  | named (s : String)
deriving DecidableEq

/-- A Python `datetime.date`: year, month, day.  Python compares dates
lexicographically on these components. -/
structure Date where
  year : Int
  month : Int
  day : Int
deriving DecidableEq

/-- Python `date <= date` (lexicographic). -/
def Date.le (a b : Date) : Bool :=
  decide (a.year < b.year ∨ (a.year = b.year ∧
    (a.month < b.month ∨ (a.month = b.month ∧ a.day ≤ b.day))))

/-- A Python `datetime.time` (without tzinfo, as produced by
`datetime.time()`). -/
structure Time where
  hour : Int
  minute : Int
  second : Int
  microsecond : Int
deriving DecidableEq

/-- A Python `datetime.datetime`: date and time components plus an
optional tzinfo (`none` = naive). -/
structure DateTime where
  date : Date
  time : Time
  tz : Option Tz
deriving DecidableEq

/-- `datetime.datetime.combine(d, t)` for a tz-less `t`: the result is
naive. -/
def DateTime.combine (d : Date) (t : Time) : DateTime := ⟨d, t, none⟩

/-- The polymorphic `due` shape: either a date-and-time or a pure date
(the data-model invariant of the module). -/
inductive DTorD where
  | dt (v : DateTime)
  | date (d : Date)
deriving DecidableEq

/-- The tzinfo carried by a parse result; a pure date carries none (Python
`date` objects have no tzinfo at all). -/
def DTorD.tzOf : DTorD → Option Tz
  | .dt v => v.tz
  | .date _ => none

/-- A `time.struct_time` as returned by `parsedatetime`'s `parse`: the
nine integer fields of the C struct. -/
structure StructTime where
  tm_year : Int
  tm_mon : Int
  tm_mday : Int
  tm_hour : Int
  tm_min : Int
  tm_sec : Int
  tm_wday : Int
  tm_yday : Int
  tm_isdst : Int
deriving DecidableEq

/-- The `pdt_context` object returned by
`parsedatetime.Calendar(version=VERSION_CONTEXT_STYLE).parse`; the module
only reads its `hasDateOrTime` flag. -/
structure PdtCtx where
  hasDateOrTime : Bool
deriving DecidableEq

/-- A cell of the table handed to `tabulate`: Python ints, strings, or
`None` (the fall-through value of `format_priority_compact`). -/
inductive Cell where
  | int (i : Int)
  | str (s : String)
  | pynone
deriving DecidableEq

/-- The external Python libraries used by `formatters.py`, as opaque
computable functions.  `strptime dt pat = none` models
`datetime.strptime(dt, pat)` raising `ValueError`; a `some` result with
`tz = none` models the usual naive result (a pattern containing `%z` may
yield an aware one, which the module immediately overrides anyway).
`dtLe` is Python `<=` on aware datetimes; `fromtimestampLocal` is the
naive local `datetime.fromtimestamp`; `dateMidnightLocalEpochMicros d` is
the epoch value (in microseconds) of
`datetime.fromordinal(d.toordinal()).timestamp()`, i.e. local midnight of
the pure date `d`. -/
structure PyLib where
  strptime : String → String → Option DateTime
  strftime : String → DateTime → String
  strftimeDate : String → Date → String
  dtLe : DateTime → DateTime → Bool
  pdtParse : String → StructTime × PdtCtx
  mktime : StructTime → Int
  fromtimestampLocal : Int → DateTime
  tabulate : List (List Cell) → String
  dateMidnightLocalEpochMicros : Date → Int

/-- `click.style(text)` with no styling arguments still appends the ANSI
reset suffix (click's default `reset=True`). -/
def click_style_default (s : String) : String := s ++ "\x1b[0m"

/-- `click.style(text, fg=red)`: red foreground code, text, reset. -/
def click_style_red (s : String) : String := "\x1b[31m" ++ s ++ "\x1b[0m"

/-- A list/database descriptor: `name` and optional `colour`
(`#RRGGBB`). -/
structure DbList where
  name : String
  colour : Option String
deriving DecidableEq

/-- A todo record as consumed by the formatters (externally owned,
read-only). -/
structure Todo where
  id : Int
  summary : String
  description : Option String
  location : Option String
  due : Option DTorD
  percent_complete : Option Int
  priority : Option Int
  is_completed : Bool
  is_recurring : Bool
  list : DbList

/-- The configuration captured by `DefaultFormatter.__init__`: format
patterns, separator, the timezone (`tz_override or tzlocal()`) and the
"now" captured once at construction
(`datetime.now().replace(tzinfo=self.tz)`, hence aware). -/
structure DefaultFormatterCfg where
  date_format : String := "%Y-%m-%d"
  time_format : String := "%H:%M"
  dt_separator : String := " "
  tz : Tz
  now : DateTime

/-- `self.datetime_format`: the separator-join of the non-empty members
of `(date_format, time_format)` (`filter(bool, ...)`). -/
def DefaultFormatter.datetime_format (cfg : DefaultFormatterCfg) : String :=
  String.intercalate cfg.dt_separator
    (([cfg.date_format, cfg.time_format]).filter (fun s => !s.isEmpty))

/-- `DefaultFormatter.format_datetime` (lines 135-141): empty string for
a falsy input, the combined pattern for datetimes, the date pattern for
pure dates. -/
def DefaultFormatter.format_datetime (env : PyLib) (cfg : DefaultFormatterCfg) :
    Option DTorD → String
  | none => ""
  | some (.dt v) => env.strftime (DefaultFormatter.datetime_format cfg) v
  | some (.date d) => env.strftimeDate cfg.date_format d

/-- `DefaultFormatter.parse_priority` (lines 143-158). -/
def DefaultFormatter.parse_priority (priority : Option String) :
    Except PyErr (Option Int) :=
  match priority with
  | none => .ok none
  | some s =>
    if s = "" then .ok none
    else if s = "low" then .ok (some 9)
    else if s = "medium" then .ok (some 5)
    else if s = "high" then .ok (some 4)
    else if s = "none" then .ok (some 0)
    else .error (.valueError "Priority has to be one of low, medium, high or none")

/-- `DefaultFormatter.format_priority` (lines 160-168).  `not priority`
is true for `None` and `0`; an integer outside every band falls off the
end of the `elif` chain, which in Python returns `None`. -/
def DefaultFormatter.format_priority (priority : Option Int) : Option String :=
  match priority with
  | none => some "none"
  | some n =>
    if n = 0 then some "none"
    else if 1 ≤ n ∧ n ≤ 4 then some "high"
    else if n = 5 then some "medium"
    else if 6 ≤ n ∧ n ≤ 9 then some "low"
    else none

/-- `DefaultFormatter.format_priority_compact` (lines 170-178). -/
def DefaultFormatter.format_priority_compact (priority : Option Int) : Option String :=
  match priority with
  | none => some ""
  | some n =>
    if n = 0 then some ""
    else if 1 ≤ n ∧ n ≤ 4 then some "!!!"
    else if n = 5 then some "!!"
    else if 6 ≤ n ∧ n ≤ 9 then some "!"
    else none

/-- `DefaultFormatter._parse_datetime_naive` (lines 191-214): the
try/except cascade over the combined, date-only and time-only patterns,
then the `parsedatetime` fallback; `ValueError` when the fallback's
context found neither a date nor a time. -/
def DefaultFormatter.parse_datetime_naive (env : PyLib) (cfg : DefaultFormatterCfg)
    (dt : String) : Except PyErr DTorD :=
  match env.strptime dt (DefaultFormatter.datetime_format cfg) with
  | some v => .ok (.dt v)
  | none =>
  match env.strptime dt cfg.date_format with
  | some v => .ok (.date v.date)
  | none =>
  match env.strptime dt cfg.time_format with
  | some v => .ok (.dt (DateTime.combine cfg.now.date v.time))
  | none =>
    let r := env.pdtParse dt
    if r.2.hasDateOrTime = false then
      .error (.valueError ("Time description not recognized: " ++ dt))
    else .ok (.dt (env.fromtimestampLocal (env.mktime r.1)))

/-- `DefaultFormatter.parse_datetime` (lines 180-189): falsy input gives
`None`; a datetime result gets `tzinfo` replaced by the configured
timezone, a pure-date result is returned as is. -/
def DefaultFormatter.parse_datetime (env : PyLib) (cfg : DefaultFormatterCfg)
    (dt : String) : Except PyErr (Option DTorD) :=
  if dt = "" then .ok none
  else
    (DefaultFormatter.parse_datetime_naive env cfg dt).map fun rv =>
      some (match rv with
        | .dt v => .dt { v with tz := some cfg.tz }
        | .date d => .date d)

/-- `DefaultFormatter.format_database` (lines 216-219):
`'{}@{}'.format(rgb_to_ansi(database.colour) or '', click.style(database.name))`.
Note the literal `@` between the colour prefix and the styled name, and
that an exception from `rgb_to_ansi` propagates. -/
def format_database (database : DbList) : Except PyErr String :=
  (rgb_to_ansi database.colour).map fun o =>
    (o.getD "") ++ "@" ++ click_style_default database.name

/-- The overdue test of `compact_multiple` (lines 69-72):
`now = self.now if isinstance(todo.due, datetime) else self.now.date()`,
then `todo.due and todo.due <= now and not todo.is_completed`.  Aware
datetimes compare through the library's `<=`; pure dates compare
lexicographically against `self.now.date()`. -/
def dueOverdue (env : PyLib) (cfg : DefaultFormatterCfg) (todo : Todo) : Bool :=
  match todo.due with
  | none => false
  | some (.dt v) => env.dtLe v cfg.now && !todo.is_completed
  | some (.date d) => Date.le d cfg.now.date && !todo.is_completed

/-- One iteration of the loop body of `DefaultFormatter.compact_multiple`
(lines 61-95): the five-cell row appended to `table` for one todo.  The
result is an `Except` because building the summary calls
`format_database`, which can raise. -/
def compactRow (env : PyLib) (cfg : DefaultFormatterCfg) (hide_list : Bool)
    (todo : Todo) : Except PyErr (List Cell) :=
  let completed := if todo.is_completed then "X" else " "
  let percent :=
    match todo.percent_complete with
    | none => ""
    | some n => if n = 0 then "" else " (" ++ toString n ++ "%)"
  let priorityCell :=
    match DefaultFormatter.format_priority_compact todo.priority with
    | some s => Cell.str s
    | none => Cell.pynone
  let due0 := DefaultFormatter.format_datetime env cfg todo.due
  let due := if dueOverdue env cfg todo then click_style_red due0 else due0
  let recurring := if todo.is_recurring then "⟳" else ""
  match
    (if hide_list then Except.ok (todo.summary ++ " " ++ percent)
     else (format_database todo.list).map fun dbs =>
       todo.summary ++ " " ++ dbs ++ percent) with
  | .error e => .error e
  | .ok summary =>
    .ok [Cell.int todo.id, Cell.str ("[" ++ completed ++ "]"), priorityCell,
      Cell.str (due ++ " " ++ recurring), Cell.str summary]

/-- `DefaultFormatter.compact_multiple` (lines 59-97): one row per todo,
handed to `tabulate(..., tablefmt=plain)`; an exception inside the loop
propagates. -/
def DefaultFormatter.compact_multiple (env : PyLib) (cfg : DefaultFormatterCfg)
    (todos : List Todo) (hide_list : Bool) : Except PyErr String :=
  (todos.mapM (compactRow env cfg hide_list)).map env.tabulate

/-- A Porcelain-mode date/datetime value, at the abstraction level the
porcelain formatter observes it: an aware datetime is its instant (epoch
microseconds) plus its tzinfo annotation; a pure date is its calendar
date. -/
inductive PorcelainDT where
  | aware (epochMicros : Int) (tz : Tz)
  | pdate (d : Date)
deriving DecidableEq

/-- `PorcelainFormatter.format_datetime` (lines 271-277).  A falsy input
gives `None`.  A pure date lacks `timestamp`, so it is widened through
`fromordinal(toordinal())` to naive local midnight and `timestamp()` of
that is taken from the environment.  An aware datetime's `timestamp()` is
its instant in seconds; `int()` truncates toward zero (`Int.tdiv`). -/
def PorcelainFormatter.format_datetime (env : PyLib) :
    Option PorcelainDT → Option Int
  | none => none
  | some (.pdate d) => some (Int.tdiv (env.dateMidnightLocalEpochMicros d) 1000000)
  | some (.aware em _) => some (Int.tdiv em 1000000)

/-- `PorcelainFormatter.parse_datetime` (lines 279-283):
`datetime.fromtimestamp(value, tz=pytz.UTC)` when `value` is truthy,
`None` otherwise — note that the integer `0` is falsy. -/
def PorcelainFormatter.parse_datetime (value : Option Int) : Option PorcelainDT :=
  match value with
  | none => none
  | some v => if v = 0 then none else some (.aware (v * 1000000) Tz.utc)

/-- `PorcelainFormatter.parse_priority` (lines 257-266): `None` passes
through; otherwise `int(priority)` must land in `range(0, 10)`; both the
conversion failure and the explicit out-of-range `ValueError` are caught
and re-raised as `click.BadParameter`. -/
def PorcelainFormatter.parse_priority (priority : Option String) :
    Except PyErr (Option Int) :=
  match priority with
  | none => .ok none
  | some s =>
    match pyIntDec s with
    | none =>
      .error (.badParameter ("invalid literal for int() with base 10: \x27" ++ s ++ "\x27"))
    | some n =>
      if 0 ≤ n ∧ n < 10 then .ok (some n)
      else .error (.badParameter "Priority has to be in the range 0-9")

/-- A concrete naive datetime used to instantiate witnesses. -/
def dtW : DateTime := ⟨⟨2024, 3, 1⟩, ⟨12, 30, 0, 0⟩, none⟩

/-- A concrete formatter configuration (the documented defaults, UTC as
the override timezone, a fixed captured now). -/
def cfgW : DefaultFormatterCfg :=
  { date_format := "%Y-%m-%d", time_format := "%H:%M", dt_separator := " ",
    tz := Tz.utc, now := { dtW with tz := some Tz.utc } }

/-- A concrete library environment whose strict parsers always fail and
whose fuzzy parse finds neither a date nor a time. -/
def envFail : PyLib :=
  { strptime := fun _ _ => none
    strftime := fun _ _ => "DT"
    strftimeDate := fun _ _ => "D"
    dtLe := fun _ _ => true
    pdtParse := fun _ => (⟨2024, 3, 1, 12, 30, 0, 4, 61, 0⟩, ⟨false⟩)
    mktime := fun _ => 1709296200
    fromtimestampLocal := fun _ => dtW
    tabulate := fun _ => ""
    dateMidnightLocalEpochMicros := fun _ => 1709251200000000 }

/-- A concrete library environment whose combined-pattern parser always
succeeds with `dtW`. -/
def envOk : PyLib :=
  { envFail with
    strptime := fun _ _ => some dtW
    pdtParse := fun _ => (⟨2024, 3, 1, 12, 30, 0, 4, 61, 0⟩, ⟨true⟩) }

/-- A concrete todo record used to instantiate witnesses: due exactly at
the captured now, not completed. -/
def todoW : Todo :=
  { id := 1, summary := "Buy milk", description := none, location := none,
    due := some (.dt cfgW.now), percent_complete := none, priority := some 4,
    is_completed := false, is_recurring := false,
    list := ⟨"home", some "#ff0000"⟩ }

theorem click_style_red_length (s : String) : (click_style_red s).length = s.length + 9 := by
  have h1 : ("\x1b[31m" : String).length = 5 := rfl
  have h2 : ("\x1b[0m" : String).length = 4 := rfl
  simp [click_style_red, String.length_append, h1, h2]
  omega

theorem click_style_red_append_ne (s t : String) :
    click_style_red s ++ t ≠ s ++ t := by
  intro h
  have h' := congrArg String.length h
  simp [String.length_append, click_style_red_length] at h'

/-- C5: the four symbolic priority names map to 0/4/5/9 and
`format_priority` maps those representatives back to the same name; any
other non-empty text raises the `ValueError` naming the symbolic
vocabulary. -/
theorem c5_priority_symbolic_roundtrip :
    (DefaultFormatter.parse_priority (some "none") = .ok (some 0)
      ∧ DefaultFormatter.parse_priority (some "high") = .ok (some 4)
      ∧ DefaultFormatter.parse_priority (some "medium") = .ok (some 5)
      ∧ DefaultFormatter.parse_priority (some "low") = .ok (some 9)
      ∧ DefaultFormatter.format_priority (some 0) = some "none"
      ∧ DefaultFormatter.format_priority (some 4) = some "high"
      ∧ DefaultFormatter.format_priority (some 5) = some "medium"
      ∧ DefaultFormatter.format_priority (some 9) = some "low")
    ∧ ∀ s : String, s ≠ "" → s ≠ "low" → s ≠ "medium" → s ≠ "high" → s ≠ "none" →
        DefaultFormatter.parse_priority (some s) =
          .error (.valueError "Priority has to be one of low, medium, high or none") := by
  constructor
  · exact ⟨rfl, rfl, rfl, rfl, rfl, rfl, rfl, rfl⟩
  · intro s h0 h1 h2 h3 h4
    simp [DefaultFormatter.parse_priority, h0, h1, h2, h3, h4]

theorem c5_witness :
    DefaultFormatter.parse_priority (some "urgent") =
      .error (.valueError "Priority has to be one of low, medium, high or none") :=
  c5_priority_symbolic_roundtrip.2 "urgent" (by decide) (by decide) (by decide)
    (by decide) (by decide)

/-- C10: every integer priority outside 0-9 falls through every
classification branch of `format_priority` and `format_priority_compact`
and yields Python `None`. -/
theorem c10_format_priority_out_of_range (p : Int) (h : p < 0 ∨ 9 < p) :
    DefaultFormatter.format_priority (some p) = none ∧
    DefaultFormatter.format_priority_compact (some p) = none := by
  have h0 : ¬ (p = 0) := by omega
  have h1 : ¬ (1 ≤ p ∧ p ≤ 4) := by omega
  have h2 : ¬ (p = 5) := by omega
  have h3 : ¬ (6 ≤ p ∧ p ≤ 9) := by omega
  exact ⟨by simp [DefaultFormatter.format_priority, h0, h1, h2, h3],
    by simp [DefaultFormatter.format_priority_compact, h0, h1, h2, h3]⟩

theorem c10_witness :
    (DefaultFormatter.format_priority (some 10) = none ∧
      DefaultFormatter.format_priority_compact (some 10) = none) ∧
    (DefaultFormatter.format_priority (some (-1)) = none ∧
      DefaultFormatter.format_priority_compact (some (-1)) = none) :=
  ⟨c10_format_priority_out_of_range 10 (Or.inr (by omega)),
    c10_format_priority_out_of_range (-1) (Or.inl (by omega))⟩

/-- C8: porcelain `parse_priority` passes `None` through, accepts exactly
the texts converting to an integer in 0-9, and every failure — conversion
failure or out-of-range — is a `click.BadParameter` wrapping the
underlying `ValueError`, never a bare `ValueError`. -/
theorem c8_porcelain_parse_priority :
    PorcelainFormatter.parse_priority none = .ok none
    ∧ (∀ s n, pyIntDec s = some n → 0 ≤ n → n < 10 →
        PorcelainFormatter.parse_priority (some s) = .ok (some n))
    ∧ (∀ s n, pyIntDec s = some n → ¬ (0 ≤ n ∧ n < 10) →
        PorcelainFormatter.parse_priority (some s) =
          .error (.badParameter "Priority has to be in the range 0-9"))
    ∧ (∀ s, pyIntDec s = none →
        PorcelainFormatter.parse_priority (some s) =
          .error (.badParameter
            ("invalid literal for int() with base 10: \x27" ++ s ++ "\x27")))
    ∧ (∀ s e, PorcelainFormatter.parse_priority (some s) = .error e →
        ∃ m, e = .badParameter m) := by
  refine ⟨rfl, ?_, ?_, ?_, ?_⟩
  · intro s n hs hlo hhi
    simp [PorcelainFormatter.parse_priority, hs, hlo, hhi]
  · intro s n hs hrange
    simp [PorcelainFormatter.parse_priority, hs, hrange]
  · intro s hs
    simp [PorcelainFormatter.parse_priority, hs]
  · intro s e he
    simp only [PorcelainFormatter.parse_priority] at he
    split at he
    · exact ⟨_, (Except.error.inj he).symm⟩
    · split at he
      · exact Except.noConfusion he
      · exact ⟨_, (Except.error.inj he).symm⟩

theorem c8_witness :
    PorcelainFormatter.parse_priority (some "5") = .ok (some 5) :=
  c8_porcelain_parse_priority.2.1 "5" 5 rfl (by decide) (by decide)

/-- C1 counterexample: on `#zzzzzz` the shape checks pass but
`int(zz, 16)` raises, so `rgb_to_ansi` raises a `ValueError` instead of
degrading to an absent result. -/
theorem c1_counterexample :
    rgb_to_ansi (some "#zzzzzz") =
      .error (.valueError "invalid literal for int() with base 16: \x27zz\x27") := rfl

/-- C1 amended: `rgb_to_ansi` raises exactly when the input is a
non-empty string starting with `#` whose three channel slices have length
2 and at least one of them is not a valid base-16 literal; on every other
input it returns an escape prefix or an absent result without failing. -/
theorem c1_rgb_to_ansi_error_iff (colour : Option String) :
    (∃ e, rgb_to_ansi colour = .error e) ↔
      (∃ s, colour = some s ∧ s ≠ "" ∧ startsWithHash s = true ∧
        ((chanR s).length = 2 ∧ (chanG s).length = 2 ∧ (chanB s).length = 2) ∧
        (pyIntHexL (chanR s) = none ∨ pyIntHexL (chanG s) = none ∨
          pyIntHexL (chanB s) = none)) := by
  cases colour with
  | none =>
    constructor
    · rintro ⟨e, he⟩; exact Except.noConfusion he
    · rintro ⟨s, hcs, _⟩; exact Option.noConfusion hcs
  | some c =>
    simp only [rgb_to_ansi, Option.some.injEq]
    by_cases hg : c = "" ∨ startsWithHash c = false
    · rw [if_pos hg]
      constructor
      · rintro ⟨e, he⟩; exact Except.noConfusion he
      · rintro ⟨s, hcs, hne, hsw, _, _⟩
        cases hcs
        rcases hg with hg | hg
        · exact absurd hg hne
        · rw [hsw] at hg; exact Bool.noConfusion hg
    · rw [if_neg hg]
      push_neg at hg
      obtain ⟨hne, hsw0⟩ := hg
      have hsw : startsWithHash c = true := by
        cases h' : startsWithHash c
        · exact absurd h' hsw0
        · rfl
      by_cases hl : (chanR c).length = 2 ∧ (chanG c).length = 2 ∧ (chanB c).length = 2
      · rw [if_pos hl]
        cases hr : pyIntHexL (chanR c) with
        | none =>
          exact ⟨fun _ => ⟨c, rfl, hne, hsw, hl, Or.inl hr⟩, fun _ => ⟨_, rfl⟩⟩
        | some ri =>
          cases hgc : pyIntHexL (chanG c) with
          | none =>
            exact ⟨fun _ => ⟨c, rfl, hne, hsw, hl, Or.inr (Or.inl hgc)⟩,
              fun _ => ⟨_, rfl⟩⟩
          | some gi =>
            cases hb : pyIntHexL (chanB c) with
            | none =>
              exact ⟨fun _ => ⟨c, rfl, hne, hsw, hl, Or.inr (Or.inr hb)⟩,
                fun _ => ⟨_, rfl⟩⟩
            | some bi =>
              constructor
              · rintro ⟨e, he⟩; exact Except.noConfusion he
              · rintro ⟨s, hcs, _, _, _, hbad⟩
                cases hcs
                rcases hbad with hbad | hbad | hbad
                · rw [hr] at hbad; exact Option.noConfusion hbad
                · rw [hgc] at hbad; exact Option.noConfusion hbad
                · rw [hb] at hbad; exact Option.noConfusion hbad
      · rw [if_neg hl]
        constructor
        · rintro ⟨e, he⟩; exact Except.noConfusion he
        · rintro ⟨s, hcs, _, _, hl2, _⟩
          cases hcs
          exact absurd hl2 hl

/-- C2: for a non-empty input the cascade result is that of the first
succeeding interpretation — combined pattern, then date pattern, then
time pattern combined with the captured now's date, then the fuzzy
parser — and is independent of the later stages once one succeeds. -/
theorem c2_parse_datetime_cascade (env : PyLib) (cfg : DefaultFormatterCfg)
    (dt : String) (h : dt ≠ "") :
    (∀ v, env.strptime dt (DefaultFormatter.datetime_format cfg) = some v →
        DefaultFormatter.parse_datetime env cfg dt =
          .ok (some (.dt { v with tz := some cfg.tz })))
    ∧ (env.strptime dt (DefaultFormatter.datetime_format cfg) = none →
        ∀ v, env.strptime dt cfg.date_format = some v →
          DefaultFormatter.parse_datetime env cfg dt = .ok (some (.date v.date)))
    ∧ (env.strptime dt (DefaultFormatter.datetime_format cfg) = none →
        env.strptime dt cfg.date_format = none →
        ∀ v, env.strptime dt cfg.time_format = some v →
          DefaultFormatter.parse_datetime env cfg dt =
            .ok (some (.dt { DateTime.combine cfg.now.date v.time with
              tz := some cfg.tz })))
    ∧ (env.strptime dt (DefaultFormatter.datetime_format cfg) = none →
        env.strptime dt cfg.date_format = none →
        env.strptime dt cfg.time_format = none →
        (env.pdtParse dt).2.hasDateOrTime = true →
          DefaultFormatter.parse_datetime env cfg dt =
            .ok (some (.dt { env.fromtimestampLocal (env.mktime (env.pdtParse dt).1) with
              tz := some cfg.tz }))) := by
  refine ⟨?_, ?_, ?_, ?_⟩
  · intro v h1
    simp [DefaultFormatter.parse_datetime, DefaultFormatter.parse_datetime_naive,
      h, h1, Except.map]
  · intro h1 v h2
    simp [DefaultFormatter.parse_datetime, DefaultFormatter.parse_datetime_naive,
      h, h1, h2, Except.map]
  · intro h1 h2 v h3
    simp [DefaultFormatter.parse_datetime, DefaultFormatter.parse_datetime_naive,
      h, h1, h2, h3, Except.map]
  · intro h1 h2 h3 h4
    simp [DefaultFormatter.parse_datetime, DefaultFormatter.parse_datetime_naive,
      h, h1, h2, h3, h4, Except.map]

theorem c2_witness :
    DefaultFormatter.parse_datetime envOk cfgW "tomorrow" =
      .ok (some (.dt { dtW with tz := some Tz.utc })) :=
  (c2_parse_datetime_cascade envOk cfgW "tomorrow" (by decide)).1 dtW rfl

theorem parse_naive_error_char (env : PyLib) (cfg : DefaultFormatterCfg)
    (dt : String) :
    ∀ e, DefaultFormatter.parse_datetime_naive env cfg dt = .error e →
      (e = .valueError ("Time description not recognized: " ++ dt) ∧
        env.strptime dt (DefaultFormatter.datetime_format cfg) = none ∧
        env.strptime dt cfg.date_format = none ∧
        env.strptime dt cfg.time_format = none ∧
        (env.pdtParse dt).2.hasDateOrTime = false) := by
  intro e he
  simp only [DefaultFormatter.parse_datetime_naive] at he
  split at he
  · exact Except.noConfusion he
  · rename_i h1
    split at he
    · exact Except.noConfusion he
    · rename_i h2
      split at he
      · exact Except.noConfusion he
      · rename_i h3
        split at he
        · rename_i h4
          exact ⟨(Except.error.inj he).symm, h1, h2, h3, h4⟩
        · exact Except.noConfusion he

theorem parse_naive_error_of (env : PyLib) (cfg : DefaultFormatterCfg)
    (dt : String)
    (h1 : env.strptime dt (DefaultFormatter.datetime_format cfg) = none)
    (h2 : env.strptime dt cfg.date_format = none)
    (h3 : env.strptime dt cfg.time_format = none)
    (h4 : (env.pdtParse dt).2.hasDateOrTime = false) :
    DefaultFormatter.parse_datetime_naive env cfg dt =
      .error (.valueError ("Time description not recognized: " ++ dt)) := by
  simp [DefaultFormatter.parse_datetime_naive, h1, h2, h3, h4]

/-- C3: for a non-empty input, `parse_datetime` raises exactly when all
three strict patterns fail and the fuzzy context found neither a date nor
a time, and the only error it ever raises is the `ValueError` carrying
the original text. -/
theorem c3_parse_datetime_error_iff (env : PyLib) (cfg : DefaultFormatterCfg)
    (dt : String) (h : dt ≠ "") :
    ((∃ e, DefaultFormatter.parse_datetime env cfg dt = .error e) ↔
      (env.strptime dt (DefaultFormatter.datetime_format cfg) = none ∧
        env.strptime dt cfg.date_format = none ∧
        env.strptime dt cfg.time_format = none ∧
        (env.pdtParse dt).2.hasDateOrTime = false))
    ∧ (∀ e, DefaultFormatter.parse_datetime env cfg dt = .error e →
        e = .valueError ("Time description not recognized: " ++ dt)) := by
  have hmap : ∀ e, DefaultFormatter.parse_datetime env cfg dt = .error e ↔
      DefaultFormatter.parse_datetime_naive env cfg dt = .error e := by
    intro e
    simp only [DefaultFormatter.parse_datetime, if_neg h]
    cases DefaultFormatter.parse_datetime_naive env cfg dt <;> simp [Except.map]
  constructor
  · constructor
    · rintro ⟨e, he⟩
      have hc := parse_naive_error_char env cfg dt e ((hmap e).mp he)
      exact ⟨hc.2.1, hc.2.2.1, hc.2.2.2.1, hc.2.2.2.2⟩
    · rintro ⟨h1, h2, h3, h4⟩
      exact ⟨_, (hmap _).mpr (parse_naive_error_of env cfg dt h1 h2 h3 h4)⟩
  · intro e he
    exact (parse_naive_error_char env cfg dt e ((hmap e).mp he)).1

theorem c3_witness :
    DefaultFormatter.parse_datetime envFail cfgW "gibberish" =
      .error (.valueError ("Time description not recognized: " ++ "gibberish")) := by
  have hch := c3_parse_datetime_error_iff envFail cfgW "gibberish" (by decide)
  obtain ⟨e, he⟩ := hch.1.mpr ⟨rfl, rfl, rfl, rfl⟩
  have hv := hch.2 e he
  rw [hv] at he
  exact he

/-- C9: whenever `parse_datetime` succeeds, a date-and-time result
carries the configured timezone (attached by the `replace` on line 186)
and a pure-date result carries none (Python dates have no tzinfo). -/
theorem c9_parse_datetime_timezone (env : PyLib) (cfg : DefaultFormatterCfg)
    (dt : String) (r : DTorD)
    (h : DefaultFormatter.parse_datetime env cfg dt = .ok (some r)) :
    r.tzOf = (match r with | .dt _ => some cfg.tz | .date _ => none) := by
  simp only [DefaultFormatter.parse_datetime] at h
  split at h
  · simp at h
  · cases hn : DefaultFormatter.parse_datetime_naive env cfg dt with
    | error e => rw [hn] at h; simp [Except.map] at h
    | ok rv =>
      rw [hn] at h
      simp only [Except.map, Except.ok.injEq, Option.some.injEq] at h
      cases rv with
      | dt v => subst h; rfl
      | date d => subst h; rfl

theorem c9_witness :
    DTorD.tzOf (.dt { dtW with tz := some Tz.utc }) = some cfgW.tz :=
  c9_parse_datetime_timezone envOk cfgW "x" (.dt { dtW with tz := some Tz.utc }) rfl

/-- C4 counterexample: for the date-and-time at exactly the epoch
(timestamp 0), `format_datetime` yields `0`, which porcelain
`parse_datetime` treats as falsy, so the round trip yields an absent
result instead of a date-and-time of the same instant. -/
theorem c4_counterexample :
    PorcelainFormatter.parse_datetime
      (PorcelainFormatter.format_datetime envFail (some (.aware 0 Tz.utc))) = none := rfl

/-- C4 amended: the structured-mode round trip
`parse_datetime(format_datetime(dt))` returns the same instant (as a UTC
date-and-time, with equal epoch-seconds) for every date-and-time whose
instant is a whole, non-zero number of epoch seconds; sub-second
precision is truncated by `int()` and an instant of exactly 0 epoch
seconds round-trips to an absent value. -/
theorem c4_porcelain_roundtrip_amended (env : PyLib) (em : Int) (tzv : Tz)
    (hdvd : em % 1000000 = 0) (hnz : em ≠ 0) :
    PorcelainFormatter.parse_datetime
        (PorcelainFormatter.format_datetime env (some (.aware em tzv))) =
      some (.aware em Tz.utc)
    ∧ PorcelainFormatter.format_datetime env
        (PorcelainFormatter.parse_datetime
          (PorcelainFormatter.format_datetime env (some (.aware em tzv)))) =
      PorcelainFormatter.format_datetime env (some (.aware em tzv)) := by
  obtain ⟨k, hk⟩ := Int.dvd_of_emod_eq_zero hdvd
  subst hk
  have h1000 : (1000000 : Int) ≠ 0 := by norm_num
  have htd : Int.tdiv (1000000 * k) 1000000 = k := by
    rw [mul_comm]
    exact Int.mul_tdiv_cancel k h1000
  have htd2 : Int.tdiv (k * 1000000) 1000000 = k := Int.mul_tdiv_cancel k h1000
  have hknz : ¬ (k = 0) := fun h0 => hnz (by rw [h0, mul_zero])
  constructor
  · simp only [PorcelainFormatter.format_datetime, PorcelainFormatter.parse_datetime,
      htd]
    rw [if_neg hknz, mul_comm]
  · simp only [PorcelainFormatter.format_datetime, PorcelainFormatter.parse_datetime,
      htd]
    rw [if_neg hknz]
    simp only [PorcelainFormatter.format_datetime, htd2]

theorem c4_witness :
    PorcelainFormatter.parse_datetime
        (PorcelainFormatter.format_datetime envFail
          (some (.aware 1709296200000000 Tz.localtz))) =
      some (.aware 1709296200000000 Tz.utc) :=
  (c4_porcelain_roundtrip_amended envFail 1709296200000000 Tz.localtz
    (by decide) (by decide)).1

theorem compactRow_due_cell (env : PyLib) (cfg : DefaultFormatterCfg)
    (hide_list : Bool) (todo : Todo) (row : List Cell)
    (h : compactRow env cfg hide_list todo = .ok row) :
    row[3]? = some (.str
      ((if dueOverdue env cfg todo
        then click_style_red (DefaultFormatter.format_datetime env cfg todo.due)
        else DefaultFormatter.format_datetime env cfg todo.due) ++ " " ++
        (if todo.is_recurring then "⟳" else ""))) := by
  simp only [compactRow] at h
  split at h
  · exact Except.noConfusion h
  · injection h with h2
    subst h2
    rfl

theorem dueOverdue_eq_true_iff (env : PyLib) (cfg : DefaultFormatterCfg)
    (todo : Todo) :
    dueOverdue env cfg todo = true ↔
      ((match todo.due with
        | none => False
        | some (.dt v) => env.dtLe v cfg.now = true
        | some (.date d) => Date.le d cfg.now.date = true) ∧
        todo.is_completed = false) := by
  cases hdue : todo.due with
  | none => simp [dueOverdue, hdue]
  | some x =>
    cases x with
    | dt v => simp [dueOverdue, hdue, Bool.and_eq_true]
    | date d => simp [dueOverdue, hdue, Bool.and_eq_true]

/-- C6: in the row built by `compact_multiple`, the due-column text is
the red-styled rendering exactly when `due` is present, `due <= now`
(with now coerced to a pure date for a pure-date due) and the record is
not completed; in particular a record due exactly at the captured now is
highlighted when not completed and unhighlighted when completed. -/
theorem c6_overdue_highlighting (env : PyLib) (cfg : DefaultFormatterCfg)
    (hide_list : Bool) :
    (∀ todo row, compactRow env cfg hide_list todo = .ok row →
      (row[3]? = some (.str
          (click_style_red (DefaultFormatter.format_datetime env cfg todo.due)
            ++ " " ++ (if todo.is_recurring then "⟳" else ""))) ↔
        ((match todo.due with
          | none => False
          | some (.dt v) => env.dtLe v cfg.now = true
          | some (.date d) => Date.le d cfg.now.date = true) ∧
          todo.is_completed = false)))
    ∧ (env.dtLe cfg.now cfg.now = true →
        ∀ todo row, todo.due = some (.dt cfg.now) → todo.is_completed = false →
          compactRow env cfg hide_list todo = .ok row →
          row[3]? = some (.str
            (click_style_red (DefaultFormatter.format_datetime env cfg todo.due)
              ++ " " ++ (if todo.is_recurring then "⟳" else ""))))
    ∧ (∀ todo row, todo.due = some (.dt cfg.now) → todo.is_completed = true →
        compactRow env cfg hide_list todo = .ok row →
        row[3]? = some (.str
          ((DefaultFormatter.format_datetime env cfg todo.due)
            ++ " " ++ (if todo.is_recurring then "⟳" else ""))) ∧
        ¬ row[3]? = some (.str
          (click_style_red (DefaultFormatter.format_datetime env cfg todo.due)
            ++ " " ++ (if todo.is_recurring then "⟳" else "")))) := by
  have hcell := compactRow_due_cell env cfg hide_list
  have hmain : ∀ todo row, compactRow env cfg hide_list todo = .ok row →
      (row[3]? = some (.str
          (click_style_red (DefaultFormatter.format_datetime env cfg todo.due)
            ++ " " ++ (if todo.is_recurring then "⟳" else ""))) ↔
        ((match todo.due with
          | none => False
          | some (.dt v) => env.dtLe v cfg.now = true
          | some (.date d) => Date.le d cfg.now.date = true) ∧
          todo.is_completed = false)) := by
    intro todo row h
    rw [hcell todo row h]
    by_cases ho : dueOverdue env cfg todo
    · rw [if_pos ho]
      exact ⟨fun _ => (dueOverdue_eq_true_iff env cfg todo).mp ho, fun _ => rfl⟩
    · rw [if_neg ho]
      constructor
      · intro heq
        simp only [Option.some.injEq, Cell.str.injEq] at heq
        rw [String.append_assoc, String.append_assoc] at heq
        exact absurd heq.symm (click_style_red_append_ne _ _)
      · intro hcond
        exact absurd ((dueOverdue_eq_true_iff env cfg todo).mpr hcond) ho
  refine ⟨hmain, ?_, ?_⟩
  · intro hrefl todo row hdue hcomp h
    refine (hmain todo row h).mpr ⟨?_, hcomp⟩
    rw [hdue]
    exact hrefl
  · intro todo row hdue hcomp h
    have ho : dueOverdue env cfg todo = false := by
      simp [dueOverdue, hdue, hcomp]
    have hc := hcell todo row h
    rw [if_neg (by rw [ho]; exact Bool.false_ne_true)] at hc
    refine ⟨hc, ?_⟩
    rw [hc]
    intro heq
    simp only [Option.some.injEq, Cell.str.injEq] at heq
    rw [String.append_assoc, String.append_assoc] at heq
    exact absurd heq.symm (click_style_red_append_ne _ _)

theorem c6_witness :
    ∃ row, compactRow envFail cfgW false todoW = .ok row ∧
      row[3]? = some (.str
        (click_style_red (DefaultFormatter.format_datetime envFail cfgW todoW.due)
          ++ " " ++ (if todoW.is_recurring then "⟳" else ""))) := by
  obtain ⟨row, hrow⟩ : ∃ row, compactRow envFail cfgW false todoW = .ok row :=
    ⟨_, rfl⟩
  exact ⟨row, hrow,
    (c6_overdue_highlighting envFail cfgW false).2.1 rfl todoW row rfl rfl hrow⟩

/-- C7 counterexample: for a list with no colour the rendered text is not
the bare styled name — the code inserts a literal `@` between the colour
prefix and the styled name. -/
theorem c7_counterexample :
    ∃ s, format_database ⟨"work", none⟩ = .ok s ∧ s ≠ click_style_default "work" := by
  refine ⟨"@" ++ click_style_default "work", rfl, ?_⟩
  decide

/-- C7 amended: `format_database` renders the colour prefix (the Color
Mapper's escape sequence, or the empty string when the colour is absent),
then a literal `@`, then the default-styled name. -/
theorem c7_format_database_amended (db : DbList) :
    (∀ e, rgb_to_ansi db.colour = .ok (some e) →
      format_database db = .ok (e ++ "@" ++ click_style_default db.name))
    ∧ (rgb_to_ansi db.colour = .ok none →
      format_database db = .ok ("@" ++ click_style_default db.name)) := by
  constructor
  · intro e he
    simp [format_database, he, Except.map]
  · intro he
    simp [format_database, he, Except.map]

theorem c7_witness :
    format_database ⟨"home", some "#ff0000"⟩ =
      .ok ("\x1b[38;2;255;0;0m" ++ "@" ++ click_style_default "home") :=
  (c7_format_database_amended ⟨"home", some "#ff0000"⟩).1 "\x1b[38;2;255;0;0m" rfl
